import Mathlib

/-!
A shallow embedding of the token issuance/validation subsystem, the login
orchestration, the error-handling middleware and the movie CRUD services
of the movies backend, together with theorems about them.

Time is modelled in integer unix seconds.  A signed JWT is modelled as the
claim set it carries together with the key and algorithm it was signed with:
an HMAC verifier accepts exactly the tokens signed with its own key and
algorithm, so signature verification is key-and-algorithm equality in the
model.  `jsonable_encoder` applied to a claim set whose values are already
primitive is the identity and returns a fresh snapshot, which the purely
functional embedding gives for free; the in-place `payload.update` mutation
of `create_access_token` is made explicit by returning the updated payload
alongside the token.
-/

namespace Movies

/-- The configuration fields the core reads.  The source accesses both the
lower-case fields declared on `Settings` (`secret_key`, `ALGORITHM`,
`access_token_expire_minutes`, `refresh_token_expire_seconds`, `base_url`)
and the upper-case names used by the login handler (`SERVER_HOST`,
`ACCESS_TOKEN_EXPIRE_MINUTES`); both spellings are kept as distinct fields,
mirroring the drift in the source. -/
structure Settings where
  secret_key : String
  ALGORITHM : String
  access_token_expire_minutes : Int
  refresh_token_expire_seconds : Int
  base_url : String
  SERVER_HOST : String
  ACCESS_TOKEN_EXPIRE_MINUTES : Int
  deriving Repr, DecidableEq

/-- The claim set carried by a login token: the dict built in
`authentication.login`, with `jti` and `updated_at` already serialized to
strings as `jsonable_encoder` does. -/
structure ClaimSet where
  iss : String
  sub : String
  aud : String
  exp : Int
  nbf : Int
  iat : Int
  jti : String
  preferred_username : String
  updated_at : String
  deriving Repr, DecidableEq

/-- A compact token string: either a well-formed JWT, which determines the
claim set it carries and the key and algorithm it was signed with, or a
malformed string. -/
inductive Token where
  | signed (claims : ClaimSet) (key : String) (alg : String)
  | malformed (raw : String)
  deriving Repr, DecidableEq

/-- The claim set embedded in a well-formed token. -/
def Token.claims : Token → Option ClaimSet
  | .signed c _ _ => some c
  | .malformed _ => none

/-- Python truthiness of the `expires_delta : Optional[timedelta]` argument:
`None` is falsy and so is `timedelta(0)`. -/
def timedeltaTruthy : Option Int → Bool
  | some d => d != 0
  | none => false

/-- `core.security.create_access_token`: computes `expire` (from
`expires_delta` when truthy, else from `access_token_expire_minutes`
minutes), overwrites `exp` in the payload dict in place, and signs a
snapshot of the updated dict.  Returns the mutated payload together with
the encoded token. -/
def create_access_token (payload : ClaimSet) (expires_delta : Option Int)
    (now : Int) (setting : Settings) : ClaimSet × Token :=
  let expire : Int :=
    if timedeltaTruthy expires_delta then now + expires_delta.getD 0
    else now + 60 * setting.access_token_expire_minutes
  let payload1 : ClaimSet := { payload with exp := expire }
  let claims : ClaimSet := payload1
  (payload1, Token.signed claims setting.secret_key setting.ALGORITHM)

/-- `core.security.create_refresh_token`: delegates to
`create_access_token` with `expires_delta = timedelta(seconds =
refresh_token_expire_seconds)`. -/
def create_refresh_token (payload : ClaimSet) (now : Int)
    (setting : Settings) : ClaimSet × Token :=
  create_access_token payload (some setting.refresh_token_expire_seconds)
    now setting

/-- `core.security.decode_token`: verifies the signature with
`secret_key`/`ALGORITHM`, then the registered claims (`python-jose`
validates `nbf`, `exp`, `aud` and `iss` here; the `sub` check is a no-op
because no expected subject is supplied).  Any verification failure is
caught and turned into `none`. -/
def decode_token (token : Token) (now : Int) (setting : Settings) :
    Option ClaimSet :=
  match token with
  | .malformed _ => none
  | .signed claims key alg =>
    if key = setting.secret_key ∧ alg = setting.ALGORITHM then
      if now < claims.nbf then none
      else if claims.exp < now then none
      else if claims.aud ≠ setting.base_url ++ "/authentication/login" then
        none
      else if claims.iss ≠ setting.base_url then none
      else some claims
    else none

/-- The base payload dict built at the top of `authentication.login`;
`now` is the issue time, `jti` the freshly generated identifier and
`updated_at` the serialized `datetime.now()`.  Note `exp` adds
`ACCESS_TOKEN_EXPIRE_MINUTES` to the epoch as a raw number of seconds. -/
def buildLoginPayload (username : String) (jti : String)
    (updated_at : String) (now : Int) (setting : Settings) : ClaimSet :=
  { iss := setting.SERVER_HOST
    sub := "username:" ++ username
    aud := setting.SERVER_HOST ++ "/authentication/login"
    exp := now + setting.ACCESS_TOKEN_EXPIRE_MINUTES
    nbf := now - 1
    iat := now
    jti := jti
    preferred_username := username
    updated_at := updated_at }

/-- The token-issuance pipeline of `authentication.login`: the access token
from the base payload (default expiry), then the refresh token from the
same — by then mutated — payload dict. -/
def loginTokens (username : String) (jti : String) (updated_at : String)
    (now : Int) (setting : Settings) : Token × Token :=
  let payload := buildLoginPayload username jti updated_at now setting
  let step1 := create_access_token payload none now setting
  let step2 := create_refresh_token step1.1 now setting
  (step1.2, step2.2)

/-- An HTTP exception: a status code and a detail message. -/
structure HTTPExc where
  status_code : Nat
  detail : String
  deriving Repr, DecidableEq

/-- `str(exc)` for an `HTTPException`. -/
def httpExcStr (e : HTTPExc) : String :=
  toString e.status_code ++ ": " ++ e.detail

/-- The successful login response: a dict with exactly the keys
`access_token`, `token_type` and `refresh_token`. -/
structure LoginResponse where
  access_token : Token
  token_type : String
  refresh_token : Token
  deriving Repr, DecidableEq

/-- The observable effects of a login call, in order. -/
inductive LoginEvent where
  | issuedAccessToken
  | issuedRefreshToken
  | attemptedEmail
  deriving Repr, DecidableEq

/-- `authentication.login`: builds the payload, issues both tokens, then
attempts the notification email (`sent_email` is the collaborator's
report); on failure raises `HTTPException(400, 'Mail could not be
delivered.')`, on success returns the response dict.  The event trace
records the order in which the three effects happen. -/
def login (username : String) (jti : String) (updated_at : String)
    (now : Int) (sent_email : Bool) (setting : Settings) :
    List LoginEvent × Except HTTPExc LoginResponse :=
  let tokens := loginTokens username jti updated_at now setting
  let trace : List LoginEvent :=
    [.issuedAccessToken, .issuedRefreshToken, .attemptedEmail]
  if sent_email then
    (trace, .ok { access_token := tokens.1, token_type := "bearer",
                  refresh_token := tokens.2 })
  else
    (trace, .error { status_code := 400,
                     detail := "Mail could not be delivered." })

/-- An exception escaping a request handler: either a recognized
`HTTPException` or anything else. -/
inductive PyExc where
  | http (e : HTTPExc)
  | other (msg : String)
  deriving Repr, DecidableEq

/-- What `ErrorHandler.dispatch` produces: the inner handler's response
unchanged, or a `JSONResponse` with a status code and an
`{'error': <message>}` body. -/
inductive DispatchResult (ρ : Type) where
  | resp (r : ρ)
  | jsonError (status_code : Nat) (error : String)
  deriving Repr, DecidableEq

/-- `middleware.error_handler.ErrorHandler.dispatch`: awaits
`call_next`; an `HTTPException` is caught and rendered as
`JSONResponse(status_code=500, content=\x7b'error': str(exc)\x7d)`; any
other exception is not caught. -/
def dispatch {ρ : Type} (call_next : Except PyExc ρ) :
    Except PyExc (DispatchResult ρ) :=
  match call_next with
  | .ok r => .ok (.resp r)
  | .error (.http e) => .ok (.jsonError 500 (httpExcStr e))
  | .error (.other m) => .error (.other m)

/-- The movie category enumeration. -/
inductive Category where
  | action | adventure | comedy | drama | fantasy | horror | musical
  | mystery | romance | science | fiction | sport | thriller | western
  deriving Repr, DecidableEq

/-- A movie record; the rating is a decimal number, modelled as a
rational. -/
structure Movie where
  id : Int
  title : String
  overview : String
  year : Int
  rating : Rat
  category : Category
  deriving Repr, DecidableEq

/-- The outcome of sqlalchemy's `Result.one()`: the unique row, or
`NoResultFound`, or `MultipleResultsFound`. -/
inductive OneResult (α : Type) where
  | found (a : α)
  | noResultFound
  | multipleResultsFound
  deriving Repr, DecidableEq

/-- `Result.one()` on the rows matched by the query. -/
def one {α : Type} : List α → OneResult α
  | [] => .noResultFound
  | [a] => .found a
  | _ => .multipleResultsFound

/-- Exceptions the movie services can let escape. -/
inductive ServiceError where
  | typeError
  | multipleResultsFound
  deriving Repr, DecidableEq

/-- The field-copy loop of `update_movie_by_id`: every key of the encoded
found movie (`id`, `title`, `overview`, `year`, `rating`, `category`) is
present in `movie.dict(exclude_unset=True)`, so every field is taken from
the update. -/
def applyUpdate (_found : Movie) (upd : Movie) : Movie :=
  { id := upd.id, title := upd.title, overview := upd.overview,
    year := upd.year, rating := upd.rating, category := upd.category }

/-- `services.movie.MovieService.update_movie_by_id` on a store of rows.
When no row matches, `found_movie` is set to `None`, `jsonable_encoder`
returns `None`, and the `for field in obj_data` loop raises `TypeError`;
`MultipleResultsFound` from `.one()` is not caught.  On success the found
row is updated field by field and committed. -/
def update_movie_by_id (movie_id : Int) (movie : Movie)
    (store : List Movie) : Except ServiceError (Movie × List Movie) :=
  match one (store.filter (fun m => m.id == movie_id)) with
  | .noResultFound => .error .typeError
  | .multipleResultsFound => .error .multipleResultsFound
  | .found found_movie =>
    let updated := applyUpdate found_movie movie
    .ok (updated, store.map (fun m => if m.id == movie_id then updated
                                      else m))

/-- The dict returned by `delete_movie_by_id`. -/
structure DeleteResult where
  ok : Bool
  deleted_at : Int
  deriving Repr, DecidableEq

/-- `services.movie.MovieService.delete_movie_by_id`: looks the row up;
`NoResultFound` is caught and reported as `ok = False` with the store
untouched; otherwise the matched row is deleted and the commit reports
`ok = True`.  `MultipleResultsFound` from `.one()` is not caught. -/
def delete_movie_by_id (movie_id : Int) (store : List Movie) (now : Int) :
    Except ServiceError (DeleteResult × List Movie) :=
  match one (store.filter (fun m => m.id == movie_id)) with
  | .noResultFound => .ok ({ ok := false, deleted_at := now }, store)
  | .multipleResultsFound => .error .multipleResultsFound
  | .found _ =>
    .ok ({ ok := true, deleted_at := now },
      store.filter (fun m => m.id != movie_id))

/-- A concrete settings value for concrete instances. -/
def sampleSettings : Settings :=
  { secret_key := "supersecret", ALGORITHM := "HS256",
    access_token_expire_minutes := 5, refresh_token_expire_seconds := 900,
    base_url := "http://localhost:8000",
    SERVER_HOST := "http://localhost:8000",
    ACCESS_TOKEN_EXPIRE_MINUTES := 5 }

/-- A concrete claim set matching `sampleSettings`, as built at issue
time 0. -/
def samplePayload : ClaimSet :=
  { iss := "http://localhost:8000"
    sub := "username:alice"
    aud := "http://localhost:8000/authentication/login"
    exp := 5, nbf := -1, iat := 0, jti := "jti-1",
    preferred_username := "alice",
    updated_at := "2023-01-01T00:00:00" }

/-- A concrete movie record. -/
def sampleMovie : Movie :=
  { id := 1, title := "My movie",
    overview := "This is the movie description.",
    year := 2022, rating := 19 / 2, category := .horror }

/-- Helper: when the mapped ids of the store are nodup (the primary-key
invariant), the rows whose id is the id of the member `m` are exactly
`[m]`. -/
theorem filter_id_eq_singleton {m : Movie} {store : List Movie}
    {movie_id : Int} (hnd : (store.map Movie.id).Nodup) (hm : m ∈ store)
    (hid : m.id = movie_id) :
    store.filter (fun x => x.id == movie_id) = [m] := by
  induction store with
  | nil => cases hm
  | cons h t ih =>
    rw [List.map_cons, List.nodup_cons] at hnd
    rcases List.mem_cons.mp hm with rfl | hmt
    · have ht : t.filter (fun x => x.id == movie_id) = [] := by
        rw [List.filter_eq_nil_iff]
        intro a ha hpa
        have hax : a.id = movie_id := by simpa using hpa
        exact hnd.1 (List.mem_map.mpr ⟨a, ha, by omega⟩)
      simp [List.filter_cons, hid, ht]
    · have hne : h.id ≠ movie_id := by
        intro hcontra
        exact hnd.1 (List.mem_map.mpr ⟨m, hmt, by omega⟩)
      simpa [List.filter_cons, hne] using ih hnd.2 hmt

/-- Helper: decoding a token signed with the configured secret and
algorithm reduces to the claim checks. -/
theorem decode_token_signed (claims : ClaimSet) (now : Int)
    (setting : Settings) :
    decode_token (Token.signed claims setting.secret_key
      setting.ALGORITHM) now setting =
      if now < claims.nbf then none
      else if claims.exp < now then none
      else if claims.aud ≠ setting.base_url ++ "/authentication/login"
        then none
      else if claims.iss ≠ setting.base_url then none
      else some claims := by
  simp [decode_token]

/-- C1 (amended): for every payload carrying the required claims whose
`nbf` is not after the issue time, every secret and algorithm, and every
positive requested expiry duration, decoding the token produced by
`create_access_token` with the same secret, algorithm and the matching
expected audience and issuer succeeds, and the resulting claim set agrees
with the input payload on `iss`, `sub`, `aud` and `preferred_username`
and has `exp` equal to the issue time plus the requested duration. -/
theorem C1_encode_decode_roundtrip (payload : ClaimSet) (d now : Int)
    (setting : Settings)
    (haud : payload.aud = setting.base_url ++ "/authentication/login")
    (hiss : payload.iss = setting.base_url)
    (hnbf : payload.nbf ≤ now) (hd : 0 < d) :
    ∃ c : ClaimSet,
      decode_token (create_access_token payload (some d) now setting).2
        now setting = some c ∧
      c.iss = payload.iss ∧ c.sub = payload.sub ∧ c.aud = payload.aud ∧
      c.preferred_username = payload.preferred_username ∧
      c.exp = now + d := by
  refine ⟨{ payload with exp := now + d }, ?_, rfl, rfl, rfl, rfl, rfl⟩
  have htok : (create_access_token payload (some d) now setting).2 =
      Token.signed { payload with exp := now + d } setting.secret_key
        setting.ALGORITHM := by
    simp [create_access_token, timedeltaTruthy, bne_iff_ne,
      show d ≠ 0 by omega]
  rw [htok, decode_token_signed]
  rw [if_neg (by simp; omega), if_neg (by simp; omega),
    if_neg (by simpa using haud), if_neg (by simpa using hiss)]

/-- C1 witness: a concrete round trip at issue time 0 with a requested
duration of 60 seconds. -/
theorem C1_encode_decode_roundtrip_witness :
    ∃ c : ClaimSet,
      decode_token (create_access_token samplePayload (some 60) 0
        sampleSettings).2 0 sampleSettings = some c ∧
      c.iss = samplePayload.iss ∧ c.sub = samplePayload.sub ∧
      c.aud = samplePayload.aud ∧
      c.preferred_username = samplePayload.preferred_username ∧
      c.exp = 0 + 60 :=
  C1_encode_decode_roundtrip samplePayload 60 0 sampleSettings (by decide)
    (by decide) (by decide) (by decide)

/-- C1 counterexample to the claim as stated: a payload containing all the
required claims but an `nbf` 10 seconds in the future fails the `nbf`
validation, so the round trip yields `none` rather than succeeding; and a
requested duration of `-5` seconds yields a token that is already expired
at decode time, so the round trip also yields `none`. -/
theorem C1_counterexample :
    decode_token (create_access_token { samplePayload with nbf := 10 }
      (some 60) 0 sampleSettings).2 0 sampleSettings = none ∧
    decode_token (create_access_token samplePayload (some (-5)) 0
      sampleSettings).2 0 sampleSettings = none := by
  exact ⟨by decide, by decide⟩

/-- C2: `decode_token` is a total function into `Option`; it yields a
claim set exactly when the token is well formed, was signed with the
configured secret and algorithm, its `exp` has not passed, its `nbf` is
not in the future, and its `aud` and `iss` equal the expected audience and
issuer; in particular a malformed token, a token signed with a different
secret, and a token decoded exactly 1 second after its `exp` all yield
`none`. -/
theorem C2_decode_total (t : Token) (now : Int) (setting : Settings)
    (c cw : ClaimSet) (raw : String) :
    (decode_token t now setting = some c ↔
      (t = .signed c setting.secret_key setting.ALGORITHM ∧ c.nbf ≤ now ∧
        now ≤ c.exp ∧
        c.aud = setting.base_url ++ "/authentication/login" ∧
        c.iss = setting.base_url)) ∧
    decode_token (.malformed raw) now setting = none ∧
    decode_token
      (.signed cw ("x" ++ setting.secret_key) setting.ALGORITHM) now
      setting = none ∧
    decode_token (.signed cw setting.secret_key setting.ALGORITHM)
      (cw.exp + 1) setting = none := by
  refine ⟨?_, rfl, ?_, ?_⟩
  · cases t with
    | malformed r => simp [decode_token]
    | signed claims key alg =>
      constructor
      · intro hdec
        simp only [decode_token] at hdec
        by_cases h1 : key = setting.secret_key ∧ alg = setting.ALGORITHM
        · rw [if_pos h1] at hdec
          by_cases h2 : now < claims.nbf
          · rw [if_pos h2] at hdec; exact absurd hdec (by simp)
          · rw [if_neg h2] at hdec
            by_cases h3 : claims.exp < now
            · rw [if_pos h3] at hdec; exact absurd hdec (by simp)
            · rw [if_neg h3] at hdec
              by_cases h4 : claims.aud ≠
                  setting.base_url ++ "/authentication/login"
              · rw [if_pos h4] at hdec; exact absurd hdec (by simp)
              · rw [if_neg h4] at hdec
                by_cases h5 : claims.iss ≠ setting.base_url
                · rw [if_pos h5] at hdec; exact absurd hdec (by simp)
                · rw [if_neg h5] at hdec
                  obtain rfl := Option.some.inj hdec
                  exact ⟨by rw [h1.1, h1.2], by omega, by omega,
                    not_not.mp h4, not_not.mp h5⟩
        · rw [if_neg h1] at hdec; exact absurd hdec (by simp)
      · intro hcond
        obtain ⟨heq, hnbf, hexp, haud, hiss⟩ := hcond
        injection heq with hc hk ha
        subst hc; subst hk; subst ha
        rw [decode_token_signed, if_neg (by omega), if_neg (by omega),
          if_neg (by simpa using haud), if_neg (by simpa using hiss)]
  · simp only [decode_token]
    rw [if_neg]
    rintro ⟨hk, -⟩
    have hlen := congrArg String.length hk
    rw [String.length_append] at hlen
    have hx : "x".length = 0 := by omega
    exact absurd hx (by decide)
  · rw [decode_token_signed]
    split_ifs <;> first | rfl | omega

/-- Settings with a 1 minute access expiry and a 60 second refresh
expiry: both expiry durations resolve to the same 60 seconds. -/
def c3SettingsA : Settings :=
  { sampleSettings with
    access_token_expire_minutes := 1
    refresh_token_expire_seconds := 60 }

/-- Settings with a zero refresh expiry: `timedelta(seconds=0)` is falsy,
so the refresh token falls back to the minutes-based default. -/
def c3SettingsB : Settings :=
  { sampleSettings with
    access_token_expire_minutes := 1
    refresh_token_expire_seconds := 0 }

/-- C3 counterexample to the claim as stated: with
`access_token_expire_minutes = 1` and `refresh_token_expire_seconds = 60`
the two tokens issued by a login call have equal `exp`, contradicting
"their exp values differ"; and with `refresh_token_expire_seconds = 0`
the zero timedelta is falsy, so the refresh token falls back to the
minutes-based default and its `exp` is not the issue time plus
`refresh_token_expire_seconds`. -/
theorem C3_counterexample :
    ((loginTokens "alice" "j" "t" 0 c3SettingsA).1.claims.map
        ClaimSet.exp =
      (loginTokens "alice" "j" "t" 0 c3SettingsA).2.claims.map
        ClaimSet.exp) ∧
    ¬ ((loginTokens "alice" "j" "t" 0 c3SettingsB).2.claims.map
        ClaimSet.exp = some (0 + 0)) := by
  exact ⟨by decide, by decide⟩

/-- C3 (amended): in every login call whose settings have a nonzero
`refresh_token_expire_seconds` that differs from
`60 * access_token_expire_minutes`, the access and refresh tokens carry
claim sets that agree on every claim other than `exp` (identical `iss`,
`sub`, `aud`, `nbf`, `iat`, `jti`, `preferred_username`, `updated_at`),
the access token's `exp` is the issue time plus
`access_token_expire_minutes` minutes, the refresh token's `exp` is the
issue time plus `refresh_token_expire_seconds` seconds, and the two `exp`
values differ. -/
theorem C3_access_refresh_claims (username jti updated_at : String)
    (now : Int) (setting : Settings)
    (h0 : setting.refresh_token_expire_seconds ≠ 0)
    (hne : setting.refresh_token_expire_seconds ≠
      60 * setting.access_token_expire_minutes) :
    ∃ ca cr : ClaimSet,
      (loginTokens username jti updated_at now setting).1.claims =
        some ca ∧
      (loginTokens username jti updated_at now setting).2.claims =
        some cr ∧
      ca.iss = cr.iss ∧ ca.sub = cr.sub ∧ ca.aud = cr.aud ∧
      ca.nbf = cr.nbf ∧ ca.iat = cr.iat ∧ ca.jti = cr.jti ∧
      ca.preferred_username = cr.preferred_username ∧
      ca.updated_at = cr.updated_at ∧
      ca.exp = now + 60 * setting.access_token_expire_minutes ∧
      cr.exp = now + setting.refresh_token_expire_seconds ∧
      ca.exp ≠ cr.exp := by
  refine ⟨{ buildLoginPayload username jti updated_at now setting with
      exp := now + 60 * setting.access_token_expire_minutes },
    { buildLoginPayload username jti updated_at now setting with
      exp := now + setting.refresh_token_expire_seconds },
    rfl, ?_, rfl, rfl, rfl, rfl, rfl, rfl, rfl, rfl, rfl, rfl,
    by simpa using Ne.symm hne⟩
  simp [loginTokens, create_refresh_token, create_access_token,
    timedeltaTruthy, bne_iff_ne, h0, Token.claims]

/-- C3 witness: the amended statement at concrete settings with a 5 minute
access expiry and a 900 second refresh expiry. -/
theorem C3_access_refresh_claims_witness :
    ∃ ca cr : ClaimSet,
      (loginTokens "alice" "jti-1" "t" 0 sampleSettings).1.claims =
        some ca ∧
      (loginTokens "alice" "jti-1" "t" 0 sampleSettings).2.claims =
        some cr ∧
      ca.iss = cr.iss ∧ ca.sub = cr.sub ∧ ca.aud = cr.aud ∧
      ca.nbf = cr.nbf ∧ ca.iat = cr.iat ∧ ca.jti = cr.jti ∧
      ca.preferred_username = cr.preferred_username ∧
      ca.updated_at = cr.updated_at ∧
      ca.exp = 0 + 60 * sampleSettings.access_token_expire_minutes ∧
      cr.exp = 0 + sampleSettings.refresh_token_expire_seconds ∧
      ca.exp ≠ cr.exp :=
  C3_access_refresh_claims "alice" "jti-1" "t" 0 sampleSettings
    (by decide) (by decide)

/-- C4: in every login call both tokens are issued before the email
side effect is attempted (the event trace is fixed); when the send
reports failure the call raises `HTTPException(400, 'Mail could not be
delivered.')` and the computed tokens are discarded; when it succeeds the
response is the mapping with exactly the keys `access_token`,
`token_type = "bearer"` and `refresh_token`; no other outcome exists. -/
theorem C4_login_email_gate (username jti updated_at : String) (now : Int)
    (sent_email : Bool) (setting : Settings) :
    (login username jti updated_at now sent_email setting).1 =
      [.issuedAccessToken, .issuedRefreshToken, .attemptedEmail] ∧
    (login username jti updated_at now false setting).2 =
      .error { status_code := 400,
               detail := "Mail could not be delivered." } ∧
    (login username jti updated_at now true setting).2 =
      .ok { access_token :=
              (loginTokens username jti updated_at now setting).1,
            token_type := "bearer",
            refresh_token :=
              (loginTokens username jti updated_at now setting).2 } := by
  refine ⟨?_, rfl, rfl⟩
  cases sent_email <;> rfl

/-- C5: `ErrorHandler.dispatch` returns the inner handler's response
unchanged when it does not raise; a raised `HTTPException` is rendered as
a status 500 response with an error body irrespective of the status code
the exception carries; any other exception propagates unchanged. -/
theorem C5_dispatch_behavior (ρ : Type) (r : ρ) (e : HTTPExc)
    (msg : String) :
    dispatch (Except.ok r : Except PyExc ρ) = .ok (.resp r) ∧
    dispatch (Except.error (PyExc.http e) : Except PyExc ρ) =
      .ok (.jsonError 500 (httpExcStr e)) ∧
    dispatch (Except.error (PyExc.other msg) : Except PyExc ρ) =
      .error (.other msg) :=
  ⟨rfl, rfl, rfl⟩

/-- C6: with positive configured expiry durations, both claim sets signed
during a login call satisfy `nbf < iat ≤ exp`. -/
theorem C6_nbf_iat_exp (username jti updated_at : String) (now : Int)
    (setting : Settings)
    (hmin : 0 < setting.access_token_expire_minutes)
    (hsec : 0 < setting.refresh_token_expire_seconds) :
    ∃ ca cr : ClaimSet,
      (loginTokens username jti updated_at now setting).1.claims =
        some ca ∧
      (loginTokens username jti updated_at now setting).2.claims =
        some cr ∧
      ca.nbf < ca.iat ∧ ca.iat ≤ ca.exp ∧
      cr.nbf < cr.iat ∧ cr.iat ≤ cr.exp := by
  refine ⟨{ buildLoginPayload username jti updated_at now setting with
      exp := now + 60 * setting.access_token_expire_minutes },
    { buildLoginPayload username jti updated_at now setting with
      exp := now + setting.refresh_token_expire_seconds },
    rfl, ?_, ?_, ?_, ?_, ?_⟩
  · simp [loginTokens, create_refresh_token, create_access_token,
      timedeltaTruthy, bne_iff_ne, show setting.refresh_token_expire_seconds ≠ 0 by omega,
      Token.claims]
  · simp [buildLoginPayload]
  · simp [buildLoginPayload]
    omega
  · simp [buildLoginPayload]
  · simp [buildLoginPayload]
    omega

/-- C6 witness: the invariant at concrete settings and issue time 0. -/
theorem C6_nbf_iat_exp_witness :
    ∃ ca cr : ClaimSet,
      (loginTokens "alice" "jti-1" "t" 0 sampleSettings).1.claims =
        some ca ∧
      (loginTokens "alice" "jti-1" "t" 0 sampleSettings).2.claims =
        some cr ∧
      ca.nbf < ca.iat ∧ ca.iat ≤ ca.exp ∧
      cr.nbf < cr.iat ∧ cr.iat ≤ cr.exp :=
  C6_nbf_iat_exp "alice" "jti-1" "t" 0 sampleSettings (by decide)
    (by decide)

/-- C7: each token issued by a login call is signed over a fresh claim
set equal to the base payload with its own injected `exp`, and the access
token present in the final result is exactly the token created before the
refresh token was issued — issuing the refresh token leaves the claim set
signed into the access token unchanged. -/
theorem C7_signed_claimsets (username jti updated_at : String) (now : Int)
    (setting : Settings) :
    ∃ ea er : Int,
      (loginTokens username jti updated_at now setting).1.claims =
        some { buildLoginPayload username jti updated_at now setting with
               exp := ea } ∧
      (loginTokens username jti updated_at now setting).2.claims =
        some { buildLoginPayload username jti updated_at now setting with
               exp := er } ∧
      (loginTokens username jti updated_at now setting).1 =
        (create_access_token
          (buildLoginPayload username jti updated_at now setting) none now
          setting).2 :=
  ⟨now + 60 * setting.access_token_expire_minutes,
   if (setting.refresh_token_expire_seconds != 0) = true then
     now + setting.refresh_token_expire_seconds
   else now + 60 * setting.access_token_expire_minutes,
   rfl, by
     by_cases h : (setting.refresh_token_expire_seconds != 0) = true <;>
       simp [loginTokens, create_refresh_token, create_access_token,
         timedeltaTruthy, h, Token.claims],
   rfl⟩

/-- C8: the `exp` the login handler writes into the base payload is the
issue time plus `ACCESS_TOKEN_EXPIRE_MINUTES` added as a raw number of
seconds, and replacing that initial value by an arbitrary `e` changes
neither issued token: the encoder overwrites `exp` before either token is
signed. -/
theorem C8_initial_exp_overwritten (username jti updated_at : String)
    (now e : Int) (setting : Settings) :
    (buildLoginPayload username jti updated_at now setting).exp =
      now + setting.ACCESS_TOKEN_EXPIRE_MINUTES ∧
    (create_access_token
        { buildLoginPayload username jti updated_at now setting with
          exp := e } none now setting).2 =
      (loginTokens username jti updated_at now setting).1 ∧
    (create_refresh_token
        (create_access_token
          { buildLoginPayload username jti updated_at now setting with
            exp := e } none now setting).1 now setting).2 =
      (loginTokens username jti updated_at now setting).2 :=
  ⟨rfl, rfl, rfl⟩

/-- C9: when no movie in the store has the given id,
`update_movie_by_id` does not return `None` as its `Optional` return
type suggests — the not-found branch leaves `found_movie = None` and the
iteration over `jsonable_encoder(None)` raises `TypeError`; the service
returns a value only under the precondition that a movie with that id
exists. -/
theorem C9_update_missing_id_raises (movie_id : Int) (movie : Movie)
    (store : List Movie) :
    ((∀ m ∈ store, m.id ≠ movie_id) →
      update_movie_by_id movie_id movie store =
        .error .typeError) ∧
    (∀ m ∈ store, m.id = movie_id → (store.map Movie.id).Nodup →
      ∃ r, update_movie_by_id movie_id movie store = .ok r) := by
  constructor
  · intro h
    have hf : store.filter (fun x => x.id == movie_id) = [] := by
      rw [List.filter_eq_nil_iff]
      intro a ha hpa
      exact h a ha (by simpa using hpa)
    unfold update_movie_by_id
    rw [hf]
    rfl
  · intro m hm hid hnd
    have hf := filter_id_eq_singleton hnd hm hid
    refine ⟨(applyUpdate m movie,
      store.map (fun x => if x.id == movie_id then applyUpdate m movie
                          else x)), ?_⟩
    unfold update_movie_by_id
    rw [hf]
    rfl

/-- C9 witness: a store whose only movie has id 1 makes the update of
id 2 raise `TypeError`. -/
theorem C9_update_missing_id_raises_witness :
    update_movie_by_id 2 sampleMovie [sampleMovie] =
      .error .typeError :=
  (C9_update_missing_id_raises 2 sampleMovie [sampleMovie]).1 (by decide)

/-- C10: `delete_movie_by_id` is atomic on error: on a store (with
pairwise distinct ids, the primary-key invariant) holding no movie of the
given id it reports `ok = false` and leaves the store unchanged; on a
store holding such a movie it reports `ok = true` and removes exactly
that movie, leaving all other records unchanged. -/
theorem C10_delete_atomic (movie_id now : Int) (store : List Movie)
    (hnd : (store.map Movie.id).Nodup) :
    ((∀ m ∈ store, m.id ≠ movie_id) →
      delete_movie_by_id movie_id store now =
        .ok ({ ok := false, deleted_at := now }, store)) ∧
    (∀ m ∈ store, m.id = movie_id →
      delete_movie_by_id movie_id store now =
        .ok ({ ok := true, deleted_at := now },
          store.filter (fun x => decide (x ≠ m)))) := by
  constructor
  · intro h
    have hf : store.filter (fun x => x.id == movie_id) = [] := by
      rw [List.filter_eq_nil_iff]
      intro a ha hpa
      exact h a ha (by simpa using hpa)
    unfold delete_movie_by_id
    rw [hf]
    rfl
  · intro m hm hid
    have hf := filter_id_eq_singleton hnd hm hid
    have hinj := List.inj_on_of_nodup_map hnd
    have hfilter : store.filter (fun x => x.id != movie_id) =
        store.filter (fun x => decide (x ≠ m)) := by
      apply List.filter_congr
      intro x hx
      by_cases hxm : x = m
      · subst hxm
        simp [hid]
      · have hxid : x.id ≠ movie_id := by
          intro hc
          exact hxm (hinj hx hm (by omega))
        simp [bne_iff_ne, hxid, hxm]
    unfold delete_movie_by_id
    rw [hf, hfilter]
    rfl

/-- C10 witness: deleting id 1 from the singleton store removes that
movie and reports `ok = true`. -/
theorem C10_delete_atomic_witness :
    delete_movie_by_id 1 [sampleMovie] 0 =
      .ok ({ ok := true, deleted_at := 0 },
        [sampleMovie].filter (fun x => decide (x ≠ sampleMovie))) :=
  (C10_delete_atomic 1 0 [sampleMovie] (by simp)).2 sampleMovie
    (List.mem_singleton_self sampleMovie) rfl

end Movies
